import Mathlib

/-!
A shallow embedding of `src/source/main.cpp` (amd_gpu_top): the counter table,
the per-tick sampling step, the percentage conversion, the stable re-sort of the
display order, the bar renderer, the sleep-length computation and the device
locator's failure paths, together with theorems checking the specification.
-/

namespace AmdGpuTop

/-- The glyph ramp `bars` (main.cpp line 37): index 0 is the blank glyph,
index 8 the full block. -/
def bars : List String := [" ", "▏", "▎", "▍", "▌", "▋", "▊", "▉", "█"]

/-- Counter descriptor (main.cpp lines 91-96). `index` is the register offset in
32-bit-word units, `mask` the busy/idle bit mask, `isIdle` the polarity. -/
structure Counter where
  name : String
  index : Nat
  mask : Nat
  isIdle : Bool
deriving DecidableEq

/-- A default descriptor, used only as the out-of-range fallback of `List.getD`. -/
def dfltCounter : Counter := ⟨"", 0, 0, false⟩

/-- The fixed counter table (main.cpp lines 97-108). -/
def counters : List Counter := [
  ⟨"CL", 0x2284, 1 <<< 31, false⟩,
  ⟨"SU", 0x2294, 1 <<< 31, false⟩,
  ⟨"GDS", 0x25c1, 1 <<< 0, false⟩,
  ⟨"IA", 0x2237, 1 <<< 0, false⟩,
  ⟨"WD", 0x223f, 1 <<< 0, false⟩,
  ⟨"VGT", 0x223c, 1 <<< 0, false⟩,
  ⟨"TD", 0x2526, 1 <<< 31, false⟩,
  ⟨"CP", 0x21a0, 1 <<< 31, false⟩,
  ⟨"SDMA0", 0x340d, 1 <<< 0, true⟩,
  ⟨"SDMA1", 0x360d, 1 <<< 0, true⟩]

/-- `readReg` (main.cpp lines 85-88): a volatile 32-bit read at a word index of the
mapped region, modelled by a function from word indices to register contents; the
`% 2 ^ 32` reflects that the hardware read yields a `uint32_t`. -/
def readReg (mmio : Nat → Nat) (index : Nat) : Nat := mmio index % 2 ^ 32

/-- The body of the inner sampling loop for one counter (main.cpp lines 150-156):
given the raw read and the current count, the updated count. -/
def countStep (c : Counter) (read k : Nat) : Nat :=
  if c.isIdle then
    if read &&& c.mask = 0 then k + 1 else k
  else
    if read &&& c.mask ≠ 0 then k + 1 else k

/-- One sample tick over all counters (main.cpp lines 149-157): every counter is
read once and its accumulator entry updated by `countStep`. -/
def sampleTick (mmio : Nat → Nat) (counts : List Nat) : List Nat :=
  List.zipWith (fun c k => countStep c (readReg mmio c.index) k) counters counts

/-- The accumulator after `t` sample ticks, starting from the zeroed vector
(main.cpp lines 143 and 148-157); `mmio t` is the register state observed at
tick `t`. -/
def runTicks (mmio : Nat → Nat → Nat) : Nat → List Nat
  | 0 => List.replicate counters.length 0
  | t + 1 => sampleTick (mmio t) (runTicks mmio t)

/-- `sampleCount` (main.cpp line 127). -/
def sampleCount : Nat := 100

/-- The percentage conversion (main.cpp line 170): integer (floor) division. -/
def percentage (count : Nat) : Nat := count * 100 / sampleCount

/-- The per-tick interval in microseconds (main.cpp line 146). -/
def interval : Int := 1000000 / (sampleCount : Int)

/-- The signed sleep length computed at tick `i` (main.cpp line 161), before the
implicit conversion at the `usleep` call; `elapsed` is the measured number of
microseconds since the window start timestamp. -/
def sleepLen (i elapsed : Int) : Int := (i + 1) * interval - elapsed

/-- The implicit conversion of the signed sleep length to the unsigned 32-bit
`useconds_t` parameter of `usleep` (main.cpp line 161): reduction modulo 2^32. -/
def usleepArg (d : Int) : Nat := (d % (2 ^ 32 : Int)).toNat

/-- The display-order re-sort (main.cpp lines 164-165): `std::stable_sort` with the
strict comparator `counts[a] > counts[b]`, modelled by the stable `List.mergeSort`
with the comparator's non-strict complement `counts[b] ≤ counts[a]`. -/
def sortCounterIndices (counts idxs : List Nat) : List Nat :=
  idxs.mergeSort fun a b => decide (counts.getD b 0 ≤ counts.getD a 0)

/-- The bar portion of one output line (main.cpp lines 110-121): the glyphs
emitted after the name and percentage fields, in order. The count of trailing
spaces uses truncated subtraction, matching the loop `for(i = len; i < 32; ++i)`
which emits nothing when `len ≥ 32`. -/
def renderBar (p : Nat) : List String :=
  List.replicate (p * 2 / 8) (bars.getD 8 "") ++
  [bars.getD (p * 2 % 8) ""] ++
  List.replicate (32 - (1 + p * 2 / 8)) " "

/-- The initial display order (main.cpp lines 137-139): the identity permutation
of the counter indices. -/
def initialCounterIndices : List Nat := List.range counters.length

/-- The environment the device locator runs against: the outcomes of the five
external PCI calls it makes. -/
structure PciEnv where
  initFails : Bool
  deviceFound : Bool
  probeFails : Bool
  postProbeVendorId : Nat
  mapFails : Bool

/-- The startup of `main`: `getPCIDevice` (main.cpp lines 40-83) followed by the
mapping check (main.cpp lines 132-135). `some (msg, status)` means the process
prints `msg` to standard error and exits with `status`; `none` means startup
succeeded and `main` enters the infinite sampling loop, which never returns. -/
def startupOutcome (env : PciEnv) : Option (String × Nat) :=
  if env.initFails then some ("could not initialize PCI", 1)
  else if !env.deviceFound then some ("could not find an AMD TONGA GPU", 1)
  else if env.probeFails then some ("could not probe GPU", 1)
  else if env.postProbeVendorId ≠ 0x1002 then some ("Graphics card is not identified", 1)
  else if env.mapFails then some ("mmio mem map failed (try to run as root)", 1)
  else none

/-- The size in bytes of the mapped register window (main.cpp line 132). -/
def mappedBytes : Nat := 0x40000

/-- The number of 32-bit words in the mapped register window. -/
def mappedWords : Nat := mappedBytes / 4

theorem getD_zipWith {α β γ : Type} (f : α → β → γ) (as : List α) (bs : List β)
    (i : Nat) (ha : i < as.length) (hb : i < bs.length) (d : γ) (da : α) (db : β) :
    (List.zipWith f as bs).getD i d = f (as.getD i da) (bs.getD i db) := by
  induction as generalizing bs i with
  | nil => simp at ha
  | cons a as ih =>
    cases bs with
    | nil => simp at hb
    | cons b bs =>
      cases i with
      | zero => simp
      | succ n => simpa using ih bs n (by simpa using ha) (by simpa using hb)

/-- Claim C1: at every sample tick the accumulator entry of counter `i` is incremented
(by exactly one) precisely when the raw 32-bit read at its register index, ANDed with
its mask, indicates busy under its polarity: for an `isIdle` counter when the masked
value is zero, otherwise when it is nonzero; moreover a raw read of `0xFFFFFFFF`
masked with `1 <<< 31` increments a counter with `isIdle = false` and leaves a counter
with `isIdle = true` unchanged. -/
theorem tick_increment_iff_polarity (mmio : Nat → Nat) (counts : List Nat) (i : Nat)
    (hi : i < counters.length) (hlen : counts.length = counters.length) :
    ((sampleTick mmio counts).getD i 0 = counts.getD i 0 + 1 ↔
      (if (counters.getD i dfltCounter).isIdle then
        readReg mmio (counters.getD i dfltCounter).index &&& (counters.getD i dfltCounter).mask = 0
       else
        readReg mmio (counters.getD i dfltCounter).index &&& (counters.getD i dfltCounter).mask ≠ 0))
    ∧ ((sampleTick mmio counts).getD i 0 = counts.getD i 0 ↔
      ¬ (if (counters.getD i dfltCounter).isIdle then
        readReg mmio (counters.getD i dfltCounter).index &&& (counters.getD i dfltCounter).mask = 0
       else
        readReg mmio (counters.getD i dfltCounter).index &&& (counters.getD i dfltCounter).mask ≠ 0))
    ∧ countStep ⟨"busy", 0, 1 <<< 31, false⟩ 0xFFFFFFFF 0 = 1
    ∧ countStep ⟨"idle", 0, 1 <<< 31, true⟩ 0xFFFFFFFF 0 = 0 := by
  rw [sampleTick, getD_zipWith _ counters counts i hi (by omega) 0 dfltCounter 0]
  refine ⟨?_, ?_, by decide, by decide⟩ <;>
  · unfold countStep
    split <;> split <;> simp_all

/-- Concrete instantiation of `tick_increment_iff_polarity`: with every register reading
`0xFFFFFFFF`, counter 0 (mask `1 <<< 31`, `isIdle = false`) is incremented at the tick. -/
theorem tick_increment_iff_polarity_witness :
    (sampleTick (fun _ => 0xFFFFFFFF) (List.replicate 10 0)).getD 0 0 =
      (List.replicate 10 0 : List Nat).getD 0 0 + 1 :=
  (tick_increment_iff_polarity (fun _ => 0xFFFFFFFF) (List.replicate 10 0) 0
    (by decide) (by decide)).1.mpr (by decide)

/-- Claim C2: the displayed percentage is `accumulator * 100 / N` with integer floor
division and `N = sampleCount = 100`; whenever `0 ≤ accumulator ≤ N` the result lies
in `[0, 100]`, and an accumulator of exactly `k` reports exactly `k`. -/
theorem percentage_bounds_exact (acc : Nat) (h : acc ≤ sampleCount) :
    sampleCount = 100
    ∧ percentage acc = acc * 100 / 100
    ∧ percentage acc ≤ 100
    ∧ percentage acc = acc := by
  refine ⟨rfl, rfl, ?_, ?_⟩
  · unfold percentage sampleCount at *
    omega
  · unfold percentage sampleCount
    omega

/-- Concrete instantiation of `percentage_bounds_exact` at accumulator value 37. -/
theorem percentage_bounds_exact_witness : percentage 37 = 37 :=
  (percentage_bounds_exact 37 (by decide)).2.2.2

/-- Claim C3: the display order is recomputed each window by a stable sort by strictly
descending count: along the re-sorted order the counts are non-increasing, any two
indices with equal counts keep their prior relative order, and for counts
`[50, 50, 30]` with prior order `[0, 1, 2]` the result is `[0, 1, 2]`. -/
theorem display_order_stable_descending (counts l : List Nat) :
    ((sortCounterIndices counts l).Pairwise fun a b => counts.getD b 0 ≤ counts.getD a 0)
    ∧ (∀ a b, counts.getD a 0 = counts.getD b 0 → List.Sublist [a, b] l →
        List.Sublist [a, b] (sortCounterIndices counts l))
    ∧ sortCounterIndices [50, 50, 30] [0, 1, 2] = [0, 1, 2] := by
  have htrans : ∀ a b c : Nat, decide (counts.getD b 0 ≤ counts.getD a 0) = true →
      decide (counts.getD c 0 ≤ counts.getD b 0) = true →
      decide (counts.getD c 0 ≤ counts.getD a 0) = true := by
    intro a b c hab hbc
    simp only [decide_eq_true_eq] at *
    omega
  have htotal : ∀ a b : Nat, (decide (counts.getD b 0 ≤ counts.getD a 0) ||
      decide (counts.getD a 0 ≤ counts.getD b 0)) = true := by
    intro a b
    simp only [Bool.or_eq_true, decide_eq_true_eq]
    omega
  refine ⟨?_, ?_, by simp [sortCounterIndices, List.mergeSort]⟩
  · exact (List.sorted_mergeSort htrans htotal l).imp (by simp)
  · intro a b hab hsub
    exact List.pair_sublist_mergeSort htrans htotal (by rw [hab]; simp) hsub

/-- Concrete instantiation of `display_order_stable_descending`: the tied pair of
counts `[50, 50, 30]` keeps its prior order. -/
theorem display_order_stable_descending_witness :
    sortCounterIndices [50, 50, 30] [0, 1, 2] = [0, 1, 2] :=
  (display_order_stable_descending [50, 50, 30] [0, 1, 2]).2.2

/-- Claim C4: for every percentage `p ≤ 100`, the rendered bar is exactly `p*2/8`
full-block glyphs, then the ramp glyph at index `p*2 % 8` (index 0 being the blank
glyph), then `32 - (p*2/8 + 1)` spaces, for a fixed total of 32 glyph cells;
`p = 0` yields the blank glyph then 31 spaces, and `p = 100` yields 25 full-block
glyphs, one blank glyph and 6 spaces. -/
theorem bar_geometry (p : Nat) (hp : p ≤ 100) :
    renderBar p = List.replicate (p * 2 / 8) "█" ++ [bars.getD (p * 2 % 8) ""] ++
      List.replicate (32 - (p * 2 / 8 + 1)) " "
    ∧ (renderBar p).length = 32
    ∧ renderBar 0 = [" "] ++ List.replicate 31 " "
    ∧ renderBar 100 = List.replicate 25 "█" ++ [" "] ++ List.replicate 6 " " := by
  refine ⟨?_, ?_, by decide, by decide⟩
  · simp [renderBar, bars, Nat.add_comm]
  · simp [renderBar]
    omega

/-- Concrete instantiation of `bar_geometry` at `p = 100`: the bar occupies exactly
32 glyph cells. -/
theorem bar_geometry_witness : (renderBar 100).length = 32 :=
  (bar_geometry 100 (by decide)).2.1

/-- Claim C5: a negative computed sleep length `(i+1)*interval - elapsed` is handed to
the unsigned 32-bit sleep parameter with no clamping to zero, so it wraps modulo 2^32
to `sleepLen + 2^32`: the argument is nonzero, and whenever the lateness is at most
2^31 microseconds the wrapped argument is at least 2^31 microseconds — enormous
relative to the 10^6-microsecond window. -/
theorem negative_sleep_wraps (i elapsed : Int) (hneg : sleepLen i elapsed < 0)
    (hmag : -(2 ^ 32) < sleepLen i elapsed) :
    usleepArg (sleepLen i elapsed) = (sleepLen i elapsed + 2 ^ 32).toNat
    ∧ 0 < usleepArg (sleepLen i elapsed)
    ∧ (-(2 ^ 31) ≤ sleepLen i elapsed → 2 ^ 31 ≤ usleepArg (sleepLen i elapsed)) := by
  have e32 : (2 : Int) ^ 32 = 4294967296 := by norm_num
  have e31 : (2 : Int) ^ 31 = 2147483648 := by norm_num
  have n31 : (2 : Nat) ^ 31 = 2147483648 := by norm_num
  unfold usleepArg
  simp only [e32, e31, n31] at hmag ⊢
  refine ⟨?_, ?_, fun h => ?_⟩ <;> omega

/-- Concrete instantiation of `negative_sleep_wraps`: at tick 0 with 20000 elapsed
microseconds the sleep length is -10000, and the wrapped argument is 2^32 - 10000. -/
theorem negative_sleep_wraps_witness :
    usleepArg (sleepLen 0 20000) = (sleepLen 0 20000 + 2 ^ 32).toNat :=
  (negative_sleep_wraps 0 20000 (by decide) (by decide)).1

/-- Claim C6: the per-tick interval is `1000000 / sampleCount = 10000` microseconds and
the sleep requested at tick `i` is `(i+1) * interval` minus the elapsed time measured
from the single window-start timestamp; consequently the tick's sleep target
`elapsed + sleepLen = (i+1) * interval` is a grid point anchored at the window start,
the same whatever elapsed time any earlier tick left behind. -/
theorem sleep_anchored_to_window_start (i elapsed : Int) (hi : 0 ≤ i)
    (hiN : i < (sampleCount : Int)) :
    interval = 10000
    ∧ sleepLen i elapsed = (i + 1) * interval - elapsed
    ∧ elapsed + sleepLen i elapsed = (i + 1) * interval
    ∧ (∀ elapsed' : Int, elapsed' + sleepLen i elapsed' = elapsed + sleepLen i elapsed) := by
  refine ⟨by decide, rfl, by unfold sleepLen; ring, fun e => by unfold sleepLen; ring⟩

/-- Concrete instantiation of `sleep_anchored_to_window_start` at tick 0 with 123
elapsed microseconds. -/
theorem sleep_anchored_to_window_start_witness :
    (123 : Int) + sleepLen 0 123 = (0 + 1) * interval :=
  (sleep_anchored_to_window_start 0 123 (by decide) (by decide)).2.2.1

theorem getD_replicate {α : Type} (n i : Nat) (a : α) :
    (List.replicate n a).getD i a = a := by
  induction n generalizing i with
  | zero => simp
  | succ n ih => cases i <;> simp [ih]

theorem countStep_le (c : Counter) (read k : Nat) : countStep c read k ≤ k + 1 := by
  unfold countStep
  split <;> split <;> omega

theorem length_runTicks (mmio : Nat → Nat → Nat) (t : Nat) :
    (runTicks mmio t).length = counters.length := by
  induction t with
  | zero => simp [runTicks]
  | succ t ih => simp [runTicks, sampleTick, ih]

/-- Claim C7: within a sampling window every accumulator entry starts at zero and grows
by at most one per sample tick, so after `t` ticks every entry is at most `t`; after
the full window of `sampleCount = 100` ticks every entry is at most 100. -/
theorem accumulator_bounded (mmio : Nat → Nat → Nat) (t i : Nat)
    (hi : i < counters.length) :
    (runTicks mmio 0).getD i 0 = 0
    ∧ (runTicks mmio (t + 1)).getD i 0 ≤ (runTicks mmio t).getD i 0 + 1
    ∧ (runTicks mmio t).getD i 0 ≤ t
    ∧ (runTicks mmio sampleCount).getD i 0 ≤ 100 := by
  have hzero : (runTicks mmio 0).getD i 0 = 0 := by
    show (List.replicate counters.length 0).getD i 0 = 0
    exact getD_replicate _ _ _
  have hstep : ∀ s : Nat,
      (runTicks mmio (s + 1)).getD i 0 ≤ (runTicks mmio s).getD i 0 + 1 := by
    intro s
    have hlen := length_runTicks mmio s
    show (sampleTick (mmio s) (runTicks mmio s)).getD i 0 ≤ (runTicks mmio s).getD i 0 + 1
    rw [sampleTick, getD_zipWith _ counters _ i hi (by omega) 0 dfltCounter 0]
    exact countStep_le _ _ _
  have hbound : ∀ s : Nat, (runTicks mmio s).getD i 0 ≤ s := by
    intro s
    induction s with
    | zero => omega
    | succ s ih =>
      have := hstep s
      omega
  exact ⟨hzero, hstep t, hbound t, hbound sampleCount⟩

/-- Concrete instantiation of `accumulator_bounded`: with all-zero register reads,
counter 0's accumulator after 3 ticks is at most 3. -/
theorem accumulator_bounded_witness :
    (runTicks (fun _ _ => 0) 3).getD 0 0 ≤ 3 :=
  (accumulator_bounded (fun _ _ => 0) 3 0 (by decide)).2.2.1

/-- Claim C8: every device-locator failure path — PCI enumeration init failure, no
matching device, probe failure, post-probe vendor mismatch, mapping failure — prints
its own distinct one-line diagnostic and exits with status 1; no path exits with
status 0, the successful path entering the never-returning sampling loop instead. -/
theorem startup_failures_fatal (env : PciEnv) :
    (∀ m s, startupOutcome env = some (m, s) → s = 1)
    ∧ (∀ m, startupOutcome env ≠ some (m, 0))
    ∧ (env.initFails = true → startupOutcome env = some ("could not initialize PCI", 1))
    ∧ (env.initFails = false → env.deviceFound = false →
        startupOutcome env = some ("could not find an AMD TONGA GPU", 1))
    ∧ (env.initFails = false → env.deviceFound = true → env.probeFails = true →
        startupOutcome env = some ("could not probe GPU", 1))
    ∧ (env.initFails = false → env.deviceFound = true → env.probeFails = false →
        env.postProbeVendorId ≠ 0x1002 →
        startupOutcome env = some ("Graphics card is not identified", 1))
    ∧ (env.initFails = false → env.deviceFound = true → env.probeFails = false →
        env.postProbeVendorId = 0x1002 → env.mapFails = true →
        startupOutcome env = some ("mmio mem map failed (try to run as root)", 1))
    ∧ (env.initFails = false → env.deviceFound = true → env.probeFails = false →
        env.postProbeVendorId = 0x1002 → env.mapFails = false →
        startupOutcome env = none)
    ∧ (["could not initialize PCI", "could not find an AMD TONGA GPU",
        "could not probe GPU", "Graphics card is not identified",
        "mmio mem map failed (try to run as root)"] : List String).Nodup := by
  refine ⟨?_, ?_, ?_, ?_, ?_, ?_, ?_, ?_, by decide⟩
  · intro m s h
    unfold startupOutcome at h
    repeat' split at h
    all_goals simp_all
  · intro m h
    unfold startupOutcome at h
    repeat' split at h
    all_goals simp_all
  all_goals
    intros
    unfold startupOutcome
    simp_all

/-- Concrete instantiation of `startup_failures_fatal`: with a failing PCI init the
outcome is the PCI diagnostic with exit status 1. -/
theorem startup_failures_fatal_witness :
    startupOutcome ⟨true, false, false, 0, false⟩ = some ("could not initialize PCI", 1) :=
  (startup_failures_fatal ⟨true, false, false, 0, false⟩).2.2.1 rfl

/-- Claim C9: the display order starts as the identity permutation of the 10 counter
indices and stays a permutation of {0,...,9} after every window's re-sort, so each
refresh prints exactly 10 lines, one per counter, no counter repeated or omitted. -/
theorem display_order_permutation (counts order : List Nat)
    (h : order.Perm initialCounterIndices) :
    initialCounterIndices = List.range 10
    ∧ (sortCounterIndices counts order).Perm initialCounterIndices
    ∧ (sortCounterIndices counts order).length = 10
    ∧ (∀ j, j < 10 → (sortCounterIndices counts order).count j = 1)
    ∧ (∀ j, ¬ j < 10 → (sortCounterIndices counts order).count j = 0) := by
  have hperm : (sortCounterIndices counts order).Perm initialCounterIndices :=
    (List.mergeSort_perm order _).trans h
  have hrange : initialCounterIndices = List.range 10 := rfl
  refine ⟨hrange, hperm, ?_, ?_, ?_⟩
  · rw [hperm.length_eq, hrange]
    simp
  · intro j hj
    rw [hperm.count_eq, hrange]
    exact List.count_eq_one_of_mem (List.nodup_range 10) (List.mem_range.mpr hj)
  · intro j hj
    rw [hperm.count_eq, hrange]
    exact List.count_eq_zero_of_not_mem (by simpa using hj)

/-- Concrete instantiation of `display_order_permutation`: re-sorting the initial
identity order yields a 10-element order. -/
theorem display_order_permutation_witness :
    (sortCounterIndices [] (List.range 10)).length = 10 :=
  (display_order_permutation [] (List.range 10) (List.Perm.refl _)).2.2.1

/-- Claim C10: the mapped region of `0x40000` bytes holds `0x10000` 32-bit words, and
every counter's register word index is strictly below that bound — the largest,
SDMA1's, being `0x360d` — so the unchecked word-indexed register read of the sampling
loop never leaves the mapping. -/
theorem register_indices_in_bounds :
    mappedWords = 0x10000
    ∧ (∀ c ∈ counters, c.index < mappedWords)
    ∧ (∀ c ∈ counters, c.index ≤ 0x360d)
    ∧ (∃ c ∈ counters, c.index = 0x360d) := by
  exact ⟨rfl, by decide, by decide, ⟨"SDMA1", 0x360d, 1 <<< 0, true⟩, by decide, rfl⟩

end AmdGpuTop
